import Mathlib

/-!
Verification of the entity-catalog processing and reconciliation engine
(Backstage catalog backend) against its design specification.

The development has three parts:
- `Catalog`: a shallow embedding of the processing store, orchestrator,
  processing engine pass, orphan detection and stitcher. The engine sources
  are not part of this repository snapshot (only the integration test is),
  so these definitions are modelled from the specification text, and are
  exercised on the exact scenarios of the integration test.
- `Tracker`: a shallow embedding of the `WaitingProgressTracker` test seam,
  translated directly from the test harness source.
- `ReleasePatch`: a shallow embedding of the github-release-manager
  `patch` side-effect chain, translated directly from its source.
-/

namespace Catalog

/-- Entity reference: kind, namespace, name; the primary key for all stored
and derived data. -/
structure EntityRef where
  kind : String
  ns : String
  name : String
deriving DecidableEq, Repr

/-- An entity descriptor, with the fields the scenarios depend on: identity,
metadata annotations, and the test-only spec.noEmit flag. -/
structure Entity where
  apiVersion : String
  kind : String
  ns : String
  name : String
  annotations : List (String × String)
  noEmit : Bool
deriving DecidableEq, Repr

/-- The reference of an entity. -/
def Entity.ref (e : Entity) : EntityRef :=
  ⟨e.kind, e.ns, e.name⟩

/-- A directed relation edge, derived from processed entity content. -/
structure Relation where
  source : EntityRef
  target : EntityRef
  relType : String
deriving DecidableEq, Repr

/-- A structured processor error: an error name and message. -/
structure PError where
  name : String
  message : String
deriving DecidableEq, Repr

/-- The result of a successful run of the processor chain on one entity:
the transformed entity plus the entities and relations emitted through the
side-channel, represented as an explicit output accumulator. -/
structure ProcOutput where
  entity : Entity
  emittedEntities : List Entity
  emittedRelations : List Relation
deriving DecidableEq, Repr

/-- A processor chain: transforms an entity or fails with an error. -/
def Processor : Type :=
  Entity → Except PError ProcOutput

/-- Refresh-state item: one per known entity reference. -/
structure RefreshStateItem where
  entityRef : EntityRef
  unprocessedEntity : Entity
  processedEntity : Option Entity
  errors : List String
  locationKey : Option String
  orphan : Bool
deriving DecidableEq, Repr

/-- The processing store state: refresh-state items (one per reference, in
insertion order), emission edges (emitter, emitted), relation edges, and the
set of references claimed by the provider in its last full mutation. -/
structure CatalogState where
  items : List RefreshStateItem
  edges : List (EntityRef × EntityRef)
  relations : List Relation
  providerClaims : List EntityRef
deriving DecidableEq, Repr

/-- The empty store. -/
def emptyState : CatalogState :=
  ⟨[], [], [], []⟩

/-- Find the refresh-state item for a reference, if any. -/
def lookupItem (s : CatalogState) (ref : EntityRef) : Option RefreshStateItem :=
  s.items.find? (fun it => it.entityRef == ref)

/-- Rewrite the item stored for a reference in place. -/
def updateItem (s : CatalogState) (ref : EntityRef)
    (f : RefreshStateItem → RefreshStateItem) : CatalogState :=
  { s with items := s.items.map (fun it => if it.entityRef == ref then f it else it) }

/-- A freshly discovered item: unprocessed input only, no orphan mark. -/
def newItem (entity : Entity) (locKey : Option String) : RefreshStateItem :=
  ⟨entity.ref, entity, none, [], locKey, false⟩

/-- Modelled from the spec: `upsertItem` of the Processing Store. A later
mutation from a different location key is rejected if the existing item
already has a non-null key that does not match, preventing two providers
from silently overwriting each other; otherwise the unprocessed entity and
location key are written in place (or a fresh item is appended). The engine
sources are absent from this snapshot; the definition follows section 4.1
and the section 3 invariant of the specification. -/
def upsertOne (s : CatalogState) (entity : Entity) (locKey : Option String) :
    Bool × CatalogState :=
  match lookupItem s entity.ref with
  | none => (true, { s with items := s.items ++ [newItem entity locKey] })
  | some it =>
    if it.locationKey ≠ none ∧ it.locationKey ≠ locKey then
      (false, s)
    else
      (true, updateItem s entity.ref
        (fun prev => { prev with unprocessedEntity := entity, locationKey := locKey }))

/-- Modelled from the spec: a `full` provider mutation. Each entity is
upserted (conflicting upserts are rejected individually, leaving the stored
item untouched) and the provider's claimed set is replaced by the references
of the accepted entities; previously claimed references that are now absent
become orphan candidates, marked at the end of the next processing pass.
The model has a single provider, as in the integration scenarios. -/
def applyFullStep (acc : CatalogState × List EntityRef) (p : Entity × Option String) :
    CatalogState × List EntityRef :=
  let u := upsertOne acc.1 p.1 p.2
  (u.2, if u.1 then acc.2 ++ [p.1.ref] else acc.2)

/-- Modelled from the spec: a `full` provider mutation, folding
`applyFullStep` over the mutation entities and replacing the claimed set. -/
def applyFull (entities : List (Entity × Option String)) (s : CatalogState) :
    CatalogState :=
  let r := entities.foldl applyFullStep (s, [])
  { r.1 with providerClaims := r.2 }

/-- Modelled from the spec: wrapping of a processor failure with the failing
processor's identity and the underlying cause (section 7 taxonomy, as
surfaced in the integration test's expected status message). -/
def wrapErrorMessage (pname : String) (e : PError) : String :=
  "InputError: Processor " ++ pname ++
    " threw an error while preprocessing; caused by " ++ e.name ++ ": " ++ e.message

/-- Modelled from the spec: one processing attempt of one claimed item
(orchestrate, write back, reconcile emissions). On failure the wrapped error
replaces the item's recorded error and nothing else changes; on success the
processed entity is written, errors are cleared, the emission and relation
edges originating at this reference are replaced by the newly emitted ones,
and each emitted child is upserted attributed to the emitting entity's
location. -/
def processOne (pname : String) (proc : Processor) (s : CatalogState)
    (ref : EntityRef) : CatalogState :=
  match lookupItem s ref with
  | none => s
  | some it =>
    match proc it.unprocessedEntity with
    | Except.error e =>
      updateItem s ref (fun prev => { prev with errors := [wrapErrorMessage pname e] })
    | Except.ok out =>
      let s1 := updateItem s ref
        (fun prev => { prev with processedEntity := some out.entity, errors := [] })
      let s2 : CatalogState :=
        { s1 with
          edges := s1.edges.filter (fun p => p.1 != ref) ++
            out.emittedEntities.map (fun c => (ref, c.ref)),
          relations := s1.relations.filter (fun r => r.source != ref) ++
            out.emittedRelations }
      out.emittedEntities.foldl (fun st c => (upsertOne st c it.locationKey).2) s2

/-- A reference is claimed when the provider claims it or some emission edge
currently targets it. -/
def claimed (s : CatalogState) (ref : EntityRef) : Bool :=
  s.providerClaims.contains ref || s.edges.any (fun p => p.2 == ref)

/-- Modelled from the spec: at the end of a processing pass every item's
orphan flag is recomputed — set when no provider or emitting parent claims
the reference, cleared when it is reclaimed. -/
def recomputeOrphans (s : CatalogState) : CatalogState :=
  { s with items := s.items.map (fun it => { it with orphan := !(claimed s it.entityRef) }) }

/-- Modelled from the spec: one complete processing pass — every item known
at the start of the pass is processed once, in store order, and orphan flags
are then recomputed. Children discovered during the pass are processed on
the next pass. -/
def processPass (pname : String) (proc : Processor) (s : CatalogState) : CatalogState :=
  recomputeOrphans ((s.items.map (fun it => it.entityRef)).foldl (processOne pname proc) s)

/-- One item of the materialized status block. -/
structure StatusItem where
  level : String
  statusType : String
  message : String
deriving DecidableEq, Repr

/-- The externally visible materialized entity: source entity (with the
orphan marker applied), relations touching it, and the status block. -/
structure MaterializedEntity where
  entity : Entity
  relations : List Relation
  status : List StatusItem
deriving DecidableEq, Repr

/-- Relation edges touching a reference. -/
def relationsTouching (s : CatalogState) (ref : EntityRef) : List Relation :=
  s.relations.filter (fun r => r.source == ref || r.target == ref)

/-- Annotations of the materialized entity: the orphan marker is appended
when the item is orphaned. -/
def orphanAnnotations (orphan : Bool) (anns : List (String × String)) :
    List (String × String) :=
  if orphan then anns ++ [("backstage.io/orphan", "true")] else anns

/-- Modelled from the spec: the Stitcher recomputes the materialized entity
deterministically from the current refresh-state item and the relation edges
touching the reference; an item with no successful processing output yet has
no materialized form. -/
def stitch (s : CatalogState) (ref : EntityRef) : Option MaterializedEntity :=
  match lookupItem s ref with
  | none => none
  | some it =>
    match it.processedEntity with
    | none => none
    | some pe =>
      some
        { entity := { pe with annotations := orphanAnnotations it.orphan pe.annotations },
          relations := relationsTouching s ref,
          status := it.errors.map
            (fun m => ⟨"error", "backstage.io/catalog-processing", m⟩) }

/-- Modelled from the spec: the catalog reader surface — the materialized
entities of all items that have a successful processing output. -/
def outputEntities (s : CatalogState) : List (EntityRef × MaterializedEntity) :=
  s.items.foldr
    (fun it acc =>
      match stitch s it.entityRef with
      | some m => (it.entityRef, m) :: acc
      | none => acc)
    []

/-- Whether a materialized entity carries the orphan marker. -/
def hasOrphanMarker (m : MaterializedEntity) : Bool :=
  m.entity.annotations.contains ("backstage.io/orphan", "true")

/-- Look up a materialized entity among the catalog outputs. -/
def lookupOutput (s : CatalogState) (ref : EntityRef) : Option MaterializedEntity :=
  match (outputEntities s).find? (fun p => p.1 == ref) with
  | some p => some p.2
  | none => none

/-! Concrete fixtures of the integration scenarios. -/

/-- The managed-by annotations every test entity carries. -/
def testAnns : List (String × String) :=
  [("backstage.io/managed-by-location", "url:."),
   ("backstage.io/managed-by-origin-location", "url:.")]

/-- The single provided entity of the error and emission scenarios. -/
def componentTest : Entity :=
  ⟨"backstage.io/v1alpha1", "Component", "default", "test", testAnns, false⟩

/-- An emitted API child entity of the emission scenario. -/
def apiEntity (n : String) : Entity :=
  ⟨"backstage.io/v1alpha1", "API", "default", n, testAnns, false⟩

/-- The emission-scenario processor: the entity named test emits one API
child per name in the list; everything else passes through unchanged. -/
def emitApisProcessor (apis : List String) : Processor := fun e =>
  Except.ok ⟨e, if e.name == "test" then apis.map apiEntity else [], []⟩

/-- The error-scenario processor: throws NOPE when the flag is set. -/
def flagProcessor (flag : Bool) : Processor := fun e =>
  if flag then Except.error ⟨"Error", "NOPE"⟩ else Except.ok ⟨e, [], []⟩

/-- A component of the cycle scenario, optionally with spec.noEmit. -/
def cycleComp (n : String) (q : Bool) : Entity :=
  ⟨"backstage.io/v1alpha1", "Component", "default", n, testAnns, q⟩

/-- The cycle-scenario processor: a emits b, b emits c, c emits d, d emits b,
unless the entity carries spec.noEmit. -/
def cycleProcessor : Processor := fun e =>
  Except.ok ⟨e,
    if e.noEmit then []
    else
      match e.name with
      | "a" => [cycleComp "b" false]
      | "b" => [cycleComp "c" false]
      | "c" => [cycleComp "d" false]
      | "d" => [cycleComp "b" false]
      | _ => [],
    []⟩

/-- Emission scenario, pass function for the first phase (two children). -/
def c1passA (s : CatalogState) : CatalogState :=
  processPass "test" (emitApisProcessor ["api-1", "api-2"]) s

/-- Emission scenario, pass function for the second phase (one child). -/
def c1passB (s : CatalogState) : CatalogState :=
  processPass "test" (emitApisProcessor ["api-1"]) s

/-- Emission scenario: state after the provider mutation. -/
def c1s0 : CatalogState :=
  applyFull [(componentTest, none)] emptyState

/-- Emission scenario: state after processing pass 1 (both children). -/
def c1s2 : CatalogState :=
  c1passA (c1passA c1s0)

/-- Emission scenario: state after processing pass 2 (one child dropped). -/
def c1s3 : CatalogState :=
  c1passB (c1passB c1s2)

/-- Error scenario: state after the provider mutation. -/
def c2s0 : CatalogState :=
  applyFull [(componentTest, none)] emptyState

/-- Error scenario: state after a pass with the flag unset. -/
def c2s1 : CatalogState :=
  processPass "Object" (flagProcessor false) c2s0

/-- Error scenario: a second clean pass before the flag is set. -/
def c2s1b : CatalogState :=
  processPass "Object" (flagProcessor false) c2s1

/-- Error scenario: state after the first pass with the flag set. -/
def c2s2 : CatalogState :=
  processPass "Object" (flagProcessor true) c2s1b

/-- Error scenario: a further failing pass; the error must remain. -/
def c2s3 : CatalogState :=
  processPass "Object" (flagProcessor true) c2s2

/-- Error scenario: a subsequent successful pass clears the error. -/
def c2s4 : CatalogState :=
  processPass "Object" (flagProcessor false) c2s3

/-- The wrapped status message the error scenario expects. -/
def nopeMessage : String :=
  "InputError: Processor Object threw an error while preprocessing; caused by Error: NOPE"

/-- Cycle scenario: one pass. -/
def cyclePass (s : CatalogState) : CatalogState :=
  processPass "test" cycleProcessor s

/-- Cycle scenario: state after the initial mutation providing a. -/
def c3s0 : CatalogState :=
  applyFull [(cycleComp "a" false, none)] emptyState

/-- Cycle scenario: state after four passes (a, b, c, d all processed). -/
def c3s4 : CatalogState :=
  cyclePass (cyclePass (cyclePass (cyclePass c3s0)))

/-- Cycle scenario: the root is re-provided with spec.noEmit set. -/
def c3s5 : CatalogState :=
  applyFull [(cycleComp "a" true, none)] c3s4

/-- Cycle scenario: the fixpoint reached one pass after the root stops
emitting into the cycle. -/
def c3fix : CatalogState :=
  cyclePass c3s5

/-- Whether every cycle member b, c, d is materialized without an orphan
marker in a state. -/
def cycleMembersUnorphaned (s : CatalogState) : Bool :=
  ["b", "c", "d"].all fun n =>
    match lookupOutput s ⟨"Component", "default", n⟩ with
    | some m => !hasOrphanMarker m
    | none => false

/-! Explicit forms of the intermediate states, used to keep every
computation step shallow. -/

/-- Reference of a Component in the default namespace. -/
def compRef (n : String) : EntityRef :=
  ⟨"Component", "default", n⟩

/-- Reference of an API in the default namespace. -/
def apiRef (n : String) : EntityRef :=
  ⟨"API", "default", n⟩

/-- A freshly discovered item: unprocessed input only. -/
def uItem (e : Entity) : RefreshStateItem :=
  ⟨e.ref, e, none, [], none, false⟩

/-- An item whose processing pass succeeded and left the entity unchanged. -/
def pItem (e : Entity) (orph : Bool) : RefreshStateItem :=
  ⟨e.ref, e, some e, [], none, orph⟩

/-- Cycle scenario entities. -/
def cA : Entity := cycleComp "a" false

/-- The root entity re-provided with spec.noEmit. -/
def cAq : Entity := cycleComp "a" true

/-- Cycle member b. -/
def cB : Entity := cycleComp "b" false

/-- Cycle member c. -/
def cC : Entity := cycleComp "c" false

/-- Cycle member d. -/
def cD : Entity := cycleComp "d" false

/-- Shared initial state of the single-component scenarios. -/
def ctL0 : CatalogState :=
  ⟨[uItem componentTest], [], [], [compRef "test"]⟩

/-- Cycle scenario after pass 1. -/
def c3l1 : CatalogState :=
  ⟨[pItem cA false, uItem cB], [(compRef "a", compRef "b")], [], [compRef "a"]⟩

/-- Cycle scenario after pass 2. -/
def c3l2 : CatalogState :=
  ⟨[pItem cA false, pItem cB false, uItem cC],
   [(compRef "a", compRef "b"), (compRef "b", compRef "c")], [], [compRef "a"]⟩

/-- Cycle scenario after pass 3. -/
def c3l3 : CatalogState :=
  ⟨[pItem cA false, pItem cB false, pItem cC false, uItem cD],
   [(compRef "a", compRef "b"), (compRef "b", compRef "c"),
    (compRef "c", compRef "d")], [], [compRef "a"]⟩

/-- Cycle scenario after pass 4: the whole cycle is materialized. -/
def c3l4 : CatalogState :=
  ⟨[pItem cA false, pItem cB false, pItem cC false, pItem cD false],
   [(compRef "a", compRef "b"), (compRef "b", compRef "c"),
    (compRef "c", compRef "d"), (compRef "d", compRef "b")], [], [compRef "a"]⟩

/-- Cycle scenario after the root is re-provided with spec.noEmit. -/
def c3l5 : CatalogState :=
  ⟨[⟨compRef "a", cAq, some cA, [], none, false⟩,
    pItem cB false, pItem cC false, pItem cD false],
   [(compRef "a", compRef "b"), (compRef "b", compRef "c"),
    (compRef "c", compRef "d"), (compRef "d", compRef "b")], [], [compRef "a"]⟩

/-- Cycle scenario fixpoint after the root stopped emitting: the cycle edges
remain and keep every member claimed. -/
def c3l6 : CatalogState :=
  ⟨[⟨compRef "a", cAq, some cAq, [], none, false⟩,
    pItem cB false, pItem cC false, pItem cD false],
   [(compRef "b", compRef "c"), (compRef "c", compRef "d"),
    (compRef "d", compRef "b")], [], [compRef "a"]⟩

/-- Emission scenario after pass 1: children discovered, not yet processed. -/
def c1l1 : CatalogState :=
  ⟨[pItem componentTest false, uItem (apiEntity "api-1"), uItem (apiEntity "api-2")],
   [(compRef "test", apiRef "api-1"), (compRef "test", apiRef "api-2")],
   [], [compRef "test"]⟩

/-- Emission scenario after pass 2: parent and both children materialized. -/
def c1l2 : CatalogState :=
  ⟨[pItem componentTest false, pItem (apiEntity "api-1") false,
    pItem (apiEntity "api-2") false],
   [(compRef "test", apiRef "api-1"), (compRef "test", apiRef "api-2")],
   [], [compRef "test"]⟩

/-- Emission scenario after the processor emits only api-1: api-2 has lost
its emission edge and is marked orphan. -/
def c1l3 : CatalogState :=
  ⟨[pItem componentTest false, pItem (apiEntity "api-1") false,
    pItem (apiEntity "api-2") true],
   [(compRef "test", apiRef "api-1")], [], [compRef "test"]⟩

/-- Error scenario: clean processed state. -/
def c2l1 : CatalogState :=
  ⟨[pItem componentTest false], [], [], [compRef "test"]⟩

/-- Error scenario: state carrying the wrapped processor error. -/
def c2l2 : CatalogState :=
  ⟨[⟨compRef "test", componentTest, some componentTest, [nopeMessage], none, false⟩],
   [], [], [compRef "test"]⟩

set_option maxHeartbeats 2000000 in
theorem ct_mutation_eq : applyFull [(componentTest, none)] emptyState = ctL0 := by
  decide

set_option maxHeartbeats 2000000 in
theorem c3_mutation_eq : applyFull [(cycleComp "a" false, none)] emptyState =
    ⟨[uItem cA], [], [], [compRef "a"]⟩ := by
  decide

set_option maxHeartbeats 2000000 in
theorem c3_step1 : cyclePass ⟨[uItem cA], [], [], [compRef "a"]⟩ = c3l1 := by
  decide

set_option maxHeartbeats 2000000 in
theorem c3_step2 : cyclePass c3l1 = c3l2 := by
  decide

set_option maxHeartbeats 2000000 in
theorem c3_step3 : cyclePass c3l2 = c3l3 := by
  decide

set_option maxHeartbeats 2000000 in
theorem c3_step4 : cyclePass c3l3 = c3l4 := by
  decide

set_option maxHeartbeats 2000000 in
theorem c3_remutation_eq : applyFull [(cycleComp "a" true, none)] c3l4 = c3l5 := by
  decide

set_option maxHeartbeats 2000000 in
theorem c3_step5 : cyclePass c3l5 = c3l6 := by
  decide

set_option maxHeartbeats 2000000 in
theorem c3_fixpoint : cyclePass c3l6 = c3l6 := by
  decide

theorem c3s5_eq : c3s5 = c3l5 := by
  unfold c3s5 c3s4 c3s0
  rw [c3_mutation_eq, c3_step1, c3_step2, c3_step3, c3_step4, c3_remutation_eq]

set_option maxHeartbeats 2000000 in
theorem c1_step1 : c1passA ctL0 = c1l1 := by
  decide

set_option maxHeartbeats 2000000 in
theorem c1_step2 : c1passA c1l1 = c1l2 := by
  decide

set_option maxHeartbeats 2000000 in
theorem c1_step3 : c1passB c1l2 = c1l3 := by
  decide

set_option maxHeartbeats 2000000 in
theorem c1_step4 : c1passB c1l3 = c1l3 := by
  decide

theorem c1s2_eq : c1s2 = c1l2 := by
  unfold c1s2 c1s0
  rw [ct_mutation_eq, c1_step1, c1_step2]

theorem c1s3_eq : c1s3 = c1l3 := by
  unfold c1s3
  rw [c1s2_eq, c1_step3, c1_step4]

set_option maxHeartbeats 2000000 in
theorem c2_step1 : processPass "Object" (flagProcessor false) ctL0 = c2l1 := by
  decide

set_option maxHeartbeats 2000000 in
theorem c2_step_clean : processPass "Object" (flagProcessor false) c2l1 = c2l1 := by
  decide

set_option maxHeartbeats 2000000 in
theorem c2_step_fail : processPass "Object" (flagProcessor true) c2l1 = c2l2 := by
  decide

set_option maxHeartbeats 2000000 in
theorem c2_step_fail_again : processPass "Object" (flagProcessor true) c2l2 = c2l2 := by
  decide

set_option maxHeartbeats 2000000 in
theorem c2_step_recover : processPass "Object" (flagProcessor false) c2l2 = c2l1 := by
  decide

theorem c2s1_eq : c2s1 = c2l1 := by
  unfold c2s1 c2s0
  rw [ct_mutation_eq, c2_step1]

theorem c2s1b_eq : c2s1b = c2l1 := by
  unfold c2s1b
  rw [c2s1_eq, c2_step_clean]

theorem c2s2_eq : c2s2 = c2l2 := by
  unfold c2s2
  rw [c2s1b_eq, c2_step_fail]

theorem c2s3_eq : c2s3 = c2l2 := by
  unfold c2s3
  rw [c2s2_eq, c2_step_fail_again]

theorem c2s4_eq : c2s4 = c2l1 := by
  unfold c2s4
  rw [c2s3_eq, c2_step_recover]

/-- C1: after a processing pass, an entity is marked orphaned exactly when no
provider claim or emission edge still targets it; concretely, the entity that
emits two children on pass 1 yields three materialized entities, and after
the pass on which only one child is still emitted, the dropped child carries
the orphan marker while the retained child and the parent do not. -/
theorem orphan_after_pass
    (pname : String) (proc : Processor) (s : CatalogState)
    (it : RefreshStateItem) (h : it ∈ (processPass pname proc s).items) :
    it.orphan = !(claimed (processPass pname proc s) it.entityRef)
    ∧ (outputEntities c1s2).length = 3
    ∧ (outputEntities c1s2).all (fun p => !hasOrphanMarker p.2) = true
    ∧ (lookupOutput c1s3 (apiRef "api-2")).map hasOrphanMarker = some true
    ∧ (lookupOutput c1s3 (apiRef "api-1")).map hasOrphanMarker = some false
    ∧ (lookupOutput c1s3 (compRef "test")).map hasOrphanMarker = some false := by
  refine ⟨?_, ?_, ?_, ?_, ?_, ?_⟩
  · simp only [processPass, recomputeOrphans, List.mem_map] at h
    obtain ⟨it0, h0, rfl⟩ := h
    rfl
  · rw [c1s2_eq]; decide
  · rw [c1s2_eq]; decide
  · rw [c1s3_eq]; decide
  · rw [c1s3_eq]; decide
  · rw [c1s3_eq]; decide

/-- Witness for C1: the orphan characterization evaluated on the concrete
single-item state after one pass that emits no children. -/
theorem orphan_after_pass_witness :
    (pItem componentTest false).orphan
      = !(claimed (processPass "test" (emitApisProcessor []) ctL0)
            (pItem componentTest false).entityRef) :=
  (orphan_after_pass "test" (emitApisProcessor []) ctL0 (pItem componentTest false)
      (by decide)).1

/-- C2: for component:default/test with a processor that throws only after a
flag is set, passes before the flag yield a materialized entity with empty
status; the first pass after the flag yields exactly one error-level status
item wrapping the failing processor identity and the cause, with the
relations list preserved empty; the error remains on a further failing pass
and is cleared by a subsequent successful pass. -/
theorem error_surfacing_scenario :
    lookupOutput c2s1 (compRef "test") = some ⟨componentTest, [], []⟩
    ∧ lookupOutput c2s1b (compRef "test") = some ⟨componentTest, [], []⟩
    ∧ lookupOutput c2s2 (compRef "test")
        = some ⟨componentTest, [],
            [⟨"error", "backstage.io/catalog-processing", nopeMessage⟩]⟩
    ∧ lookupOutput c2s3 (compRef "test")
        = some ⟨componentTest, [],
            [⟨"error", "backstage.io/catalog-processing", nopeMessage⟩]⟩
    ∧ lookupOutput c2s4 (compRef "test") = some ⟨componentTest, [], []⟩ := by
  refine ⟨?_, ?_, ?_, ?_, ?_⟩
  · rw [c2s1_eq]; decide
  · rw [c2s1b_eq]; decide
  · rw [c2s2_eq]; decide
  · rw [c2s3_eq]; decide
  · rw [c2s4_eq]; decide

/-- C3: after the root entity of the emission cycle b, c, d is re-provided
with spec.noEmit, every cycle member stays materialized in the catalog
without an orphan marker, for any number of further processing passes. -/
theorem cycle_members_never_orphaned :
    ∀ n : Nat, cycleMembersUnorphaned (cyclePass^[n] c3s5) = true := by
  have hfix : ∀ k : Nat, cyclePass^[k] c3l6 = c3l6 := by
    intro k
    induction k with
    | zero => rfl
    | succ j ih => rw [Function.iterate_succ_apply, c3_fixpoint, ih]
  intro n
  cases n with
  | zero =>
    rw [Function.iterate_zero_apply, c3s5_eq]
    decide
  | succ m =>
    rw [Function.iterate_succ_apply, c3s5_eq, c3_step5, hfix]
    decide

/-! Conflict rejection (Processing Store upsert). -/

/-- A one-item store owned by location L1, used to witness conflict facts. -/
def c4state : CatalogState :=
  ⟨[⟨compRef "test", componentTest, none, [], some "L1", false⟩], [], [], []⟩

/-- The stored item of the conflict witness state. -/
def c4item : RefreshStateItem :=
  ⟨compRef "test", componentTest, none, [], some "L1", false⟩

/-- C4: a mutation for a reference whose stored item has non-null location
key L1, carrying a different location key, is rejected, and both the upsert
and the surrounding full mutation leave the stored item (every field)
exactly as it was. -/
theorem conflict_rejection
    (s : CatalogState) (R : EntityRef) (it : RefreshStateItem)
    (e : Entity) (L1 : String) (L2 : Option String)
    (hlook : lookupItem s R = some it) (hkey : it.locationKey = some L1)
    (hne : L2 ≠ some L1) (href : e.ref = R) :
    upsertOne s e L2 = (false, s)
    ∧ lookupItem (applyFull [(e, L2)] s) R = some it := by
  have hc : it.locationKey ≠ none ∧ it.locationKey ≠ L2 :=
    ⟨by rw [hkey]; simp, by rw [hkey]; exact fun hh => hne hh.symm⟩
  have h1 : upsertOne s e L2 = (false, s) := by
    simp only [upsertOne, href, hlook, if_pos hc]
  refine ⟨h1, ?_⟩
  simp only [applyFull, applyFullStep, List.foldl_cons, List.foldl_nil, h1]
  exact hlook

/-- Witness for C4: the conflicting upsert evaluated on a concrete one-item
store with keys L1 and L2. -/
theorem conflict_rejection_witness :
    upsertOne c4state componentTest (some "L2") = (false, c4state) :=
  (conflict_rejection c4state (compRef "test") c4item componentTest "L1" (some "L2")
      (by decide) (by decide) (by decide) (by decide)).1

/-! Stitcher as a writer into the materialized store. -/

/-- Look up the materialized entity stored for a reference. -/
def lookupMat (store : List (EntityRef × MaterializedEntity)) (ref : EntityRef) :
    Option MaterializedEntity :=
  match store.find? (fun p => p.1 == ref) with
  | some p => some p.2
  | none => none

/-- Write a materialized entity for a reference: replace the existing entry
in place or append a new one. -/
def setMat : List (EntityRef × MaterializedEntity) → EntityRef → MaterializedEntity →
    List (EntityRef × MaterializedEntity)
  | [], ref, m => [(ref, m)]
  | p :: rest, ref, m =>
    if p.1 == ref then (ref, m) :: rest else p :: setMat rest ref m

/-- Modelled from the spec: one stitch call — recompute the materialized
entity of a reference from the current refresh-state item and relation edges
and write it into the materialized store, removing the entry when the item
has no processed output. -/
def stitchInto (s : CatalogState) (store : List (EntityRef × MaterializedEntity))
    (ref : EntityRef) : List (EntityRef × MaterializedEntity) :=
  match stitch s ref with
  | none => store.filter (fun p => p.1 != ref)
  | some m => setMat store ref m

theorem setMat_setMat (store : List (EntityRef × MaterializedEntity))
    (ref : EntityRef) (m : MaterializedEntity) :
    setMat (setMat store ref m) ref m = setMat store ref m := by
  induction store with
  | nil => simp [setMat]
  | cons p rest ih =>
    by_cases hc : (p.1 == ref) = true
    · simp [setMat, hc]
    · simp [setMat, hc, ih]

theorem lookupMat_setMat (store : List (EntityRef × MaterializedEntity))
    (ref : EntityRef) (m : MaterializedEntity) :
    lookupMat (setMat store ref m) ref = some m := by
  induction store with
  | nil => simp [setMat, lookupMat, List.find?]
  | cons p rest ih =>
    by_cases hc : (p.1 == ref) = true
    · simp [setMat, hc, lookupMat, List.find?]
    · simp only [setMat, hc, if_false]
      simpa [lookupMat, List.find?, hc] using ih

theorem filter_ne_idem (store : List (EntityRef × MaterializedEntity)) (ref : EntityRef) :
    (store.filter (fun p => p.1 != ref)).filter (fun p => p.1 != ref)
      = store.filter (fun p => p.1 != ref) := by
  induction store with
  | nil => rfl
  | cons p rest ih =>
    by_cases hc : (p.1 != ref) = true
    · simp [List.filter, hc, ih]
    · simp [List.filter, hc, ih]

theorem lookupMat_filter_ne (store : List (EntityRef × MaterializedEntity))
    (ref : EntityRef) :
    lookupMat (store.filter (fun p => p.1 != ref)) ref = none := by
  induction store with
  | nil => rfl
  | cons p rest ih =>
    by_cases hc : (p.1 != ref) = true
    · have hne : (p.1 == ref) = false := by
        simpa [bne] using hc
      simp [List.filter, hc, lookupMat, List.find?, hne] at ih ⊢
      exact ih
    · simp [List.filter, hc] at ih ⊢
      exact ih

/-- C6: stitching is idempotent and deterministic — with no intervening
change to the refresh-state item or the relation edges, a second stitch of
the same reference leaves the materialized store identical, and the stored
materialized entity is exactly the deterministic recomputation from the
current state. -/
theorem stitch_idempotent (s : CatalogState)
    (store : List (EntityRef × MaterializedEntity)) (ref : EntityRef) :
    stitchInto s (stitchInto s store ref) ref = stitchInto s store ref
    ∧ lookupMat (stitchInto s store ref) ref = stitch s ref := by
  unfold stitchInto
  cases hst : stitch s ref with
  | none => exact ⟨filter_ne_idem store ref, lookupMat_filter_ne store ref⟩
  | some m => exact ⟨setMat_setMat store ref m, lookupMat_setMat store ref m⟩

/-! Progress-observer dispatch of the Processing Engine. -/

/-- The four terminal progress callbacks of the observer interface. -/
inductive TerminalCallback where
  | successNoChange
  | successWithChange
  | successWithErrors
  | failed
deriving DecidableEq, Repr

/-- Observer events emitted during one processing attempt. -/
inductive ObserverEvent where
  | itemStart
  | processorsCompleted
  | terminal (c : TerminalCallback)
deriving DecidableEq, Repr

/-- Outcome data of one processing attempt: whether the attempt failed hard,
whether processor errors were recorded, and whether the result differed from
the previous processed entity. -/
structure AttemptResult where
  hardFailed : Bool
  hadErrors : Bool
  changed : Bool
deriving DecidableEq, Repr

/-- Modelled from the spec: the engine's per-attempt state machine Claimed →
Processing → terminal; the observer sees the start, the non-terminal
processors-completed callback when orchestration finishes, and then exactly
the one terminal callback selected by the attempt outcome. -/
def attemptEvents (r : AttemptResult) : List ObserverEvent :=
  if r.hardFailed then
    [ObserverEvent.itemStart, ObserverEvent.terminal TerminalCallback.failed]
  else
    [ObserverEvent.itemStart, ObserverEvent.processorsCompleted,
     ObserverEvent.terminal
       (if r.hadErrors then TerminalCallback.successWithErrors
        else if r.changed then TerminalCallback.successWithChange
        else TerminalCallback.successNoChange)]

/-- Whether an observer event is one of the terminal callbacks. -/
def isTerminal : ObserverEvent → Bool
  | ObserverEvent.terminal _ => true
  | _ => false

/-- C7: every processing attempt invokes exactly one terminal callback on
the tracking object — never zero and never more than one. -/
theorem exactly_one_terminal (r : AttemptResult) :
    (attemptEvents r).countP isTerminal = 1 := by
  obtain ⟨hf, he, hc⟩ := r
  cases hf <;> cases he <;> cases hc <;> rfl

/-! Convergence of reprocessing under unchanged input. -/

/-- A processor chain that only transforms: it never emits and never fails. -/
def plainProc (f : Entity → Entity) : Processor :=
  fun e => Except.ok ⟨f e, [], []⟩

theorem map_eq_self_of_mem {α : Type} {l : List α} {f : α → α}
    (h : ∀ a ∈ l, f a = a) : l.map f = l := by
  induction l with
  | nil => rfl
  | cons x xs ih =>
    simp only [List.map_cons, List.cons.injEq]
    exact ⟨h x (List.mem_cons_self x xs),
      ih (fun a ha => h a (List.mem_cons_of_mem x ha))⟩

theorem foldl_fixed {α β : Type} {g : α → β → α} {s : α} {l : List β}
    (h : ∀ b ∈ l, g s b = s) : l.foldl g s = s := by
  induction l with
  | nil => rfl
  | cons x xs ih =>
    rw [List.foldl_cons, h x (List.mem_cons_self x xs)]
    exact ih (fun b hb => h b (List.mem_cons_of_mem x hb))

theorem upsertOne_self {s : CatalogState} {e : Entity} {k : Option String}
    (hEx : (lookupItem s e.ref).isSome = true)
    (hAll : ∀ it ∈ s.items, it.entityRef = e.ref →
        it.unprocessedEntity = e ∧ it.locationKey = k) :
    upsertOne s e k = (true, s) := by
  obtain ⟨it, hit⟩ := Option.isSome_iff_exists.mp hEx
  have hit' : s.items.find? (fun x => x.entityRef == e.ref) = some it := hit
  have hitmem : it ∈ s.items := List.mem_of_find?_eq_some hit'
  have hrefeq : it.entityRef = e.ref := by
    simpa using List.find?_some hit'
  obtain ⟨hu, hk⟩ := hAll it hitmem hrefeq
  have hnc : ¬(it.locationKey ≠ none ∧ it.locationKey ≠ k) := fun hcon => hcon.2 hk
  have hupd : updateItem s e.ref
      (fun prev => { prev with unprocessedEntity := e, locationKey := k }) = s := by
    unfold updateItem
    have hmap : s.items.map
        (fun a => if a.entityRef == e.ref
          then { a with unprocessedEntity := e, locationKey := k } else a) = s.items := by
      apply map_eq_self_of_mem
      intro a ha
      by_cases hcc : (a.entityRef == e.ref) = true
      · obtain ⟨ha1, ha2⟩ := hAll a ha (by simpa using hcc)
        simp [hcc, ← ha1, ← ha2]
      · simp [hcc]
    rw [hmap]
  simp only [upsertOne, hit, if_neg hnc, hupd]

/-- C5: reprocessing with no change to the input is stable — on a state that
already reflects a full mutation processed by a non-emitting processor chain,
re-applying the same full mutation is the identity, another complete
processing pass is the identity, and hence the materialized outputs and the
relation count are unchanged. -/
theorem stable_reprocessing
    (pname : String) (f : Entity → Entity) (E : List (Entity × Option String))
    (s : CatalogState)
    (hE : ∀ p ∈ E, ∀ it ∈ s.items, it.entityRef = p.1.ref →
        it.unprocessedEntity = p.1 ∧ it.locationKey = p.2)
    (hEx : ∀ p ∈ E, (lookupItem s p.1.ref).isSome = true)
    (hclaims : s.providerClaims = E.map (fun p => p.1.ref))
    (hproc : ∀ it ∈ s.items,
        it.processedEntity = some (f it.unprocessedEntity) ∧ it.errors = [])
    (hedges : s.edges = []) (hrels : s.relations = [])
    (horphan : ∀ it ∈ s.items, it.orphan = !(s.providerClaims.contains it.entityRef))
    (hnd : (s.items.map (fun it => it.entityRef)).Nodup) :
    applyFull E s = s
    ∧ processPass pname (plainProc f) s = s
    ∧ outputEntities (processPass pname (plainProc f) (applyFull E s)) = outputEntities s
    ∧ (processPass pname (plainProc f) (applyFull E s)).relations.length
        = s.relations.length := by
  have hup : ∀ p ∈ E, upsertOne s p.1 p.2 = (true, s) := by
    intro p hp
    exact upsertOne_self (hEx p hp) (fun it hit hr => hE p hp it hit hr)
  have happ : applyFull E s = s := by
    unfold applyFull
    have hfold : ∀ (l : List (Entity × Option String)) (acc : List EntityRef),
        (∀ p ∈ l, upsertOne s p.1 p.2 = (true, s)) →
        l.foldl applyFullStep (s, acc) = (s, acc ++ l.map (fun p => p.1.ref)) := by
      intro l
      induction l with
      | nil =>
        intro acc _
        simp
      | cons q qs ih =>
        intro acc h
        have hstep : applyFullStep (s, acc) q = (s, acc ++ [q.1.ref]) := by
          simp [applyFullStep, h q (List.mem_cons_self q qs)]
        rw [List.foldl_cons, hstep,
          ih (acc ++ [q.1.ref]) (fun p hp => h p (List.mem_cons_of_mem q hp))]
        simp
    rw [hfold E [] hup]
    simp only [List.nil_append]
    rw [← hclaims]
  have hone : ∀ r ∈ s.items.map (fun it => it.entityRef),
      processOne pname (plainProc f) s r = s := by
    intro r hr
    have hsome : (s.items.find? (fun x => x.entityRef == r)).isSome = true := by
      obtain ⟨it0, hit0, hre⟩ := List.mem_map.mp hr
      rw [List.find?_isSome]
      exact ⟨it0, hit0, by simp [hre]⟩
    obtain ⟨it, hit⟩ := Option.isSome_iff_exists.mp hsome
    have hitmem : it ∈ s.items := List.mem_of_find?_eq_some hit
    have hrefeq : it.entityRef = r := by
      simpa using List.find?_some hit
    have hlook : lookupItem s r = some it := hit
    have hupd : updateItem s r
        (fun prev => { prev with
          processedEntity := some (f it.unprocessedEntity), errors := [] }) = s := by
      unfold updateItem
      have hmap : s.items.map
          (fun a => if a.entityRef == r
            then { a with processedEntity := some (f it.unprocessedEntity), errors := [] }
            else a) = s.items := by
        apply map_eq_self_of_mem
        intro a ha
        by_cases hcc : (a.entityRef == r) = true
        · have haeq : a = it := by
            apply List.inj_on_of_nodup_map hnd ha hitmem
            rw [hrefeq]
            simpa using hcc
          subst haeq
          obtain ⟨hp1, hp2⟩ := hproc a ha
          simp [hcc, ← hp1, ← hp2]
        · simp [hcc]
      rw [hmap]
    simp only [processOne, hlook, plainProc, hupd]
    rw [hedges, hrels]
    simp only [List.filter_nil, List.map_nil, List.append_nil, List.nil_append,
      List.foldl_nil]
    rw [← hedges, ← hrels]
  have hpass : processPass pname (plainProc f) s = s := by
    unfold processPass
    rw [foldl_fixed hone]
    unfold recomputeOrphans
    have hmap : s.items.map
        (fun it => { it with orphan := !(claimed s it.entityRef) }) = s.items := by
      apply map_eq_self_of_mem
      intro a ha
      have hcl : claimed s a.entityRef = s.providerClaims.contains a.entityRef := by
        simp [claimed, hedges]
      rw [hcl, ← horphan a ha]
    rw [hmap]
  refine ⟨happ, hpass, ?_, ?_⟩
  · rw [happ, hpass]
  · rw [happ, hpass]

/-! Concrete converged state of the no-self-duplication scenario. -/

/-- Entity a of the no-replacement scenario. -/
def entityA : Entity :=
  ⟨"backstage.io/v1alpha1", "Component", "default", "a", testAnns, false⟩

/-- Entity b of the no-replacement scenario, provided under location loc. -/
def entityB : Entity :=
  ⟨"backstage.io/v1alpha1", "Component", "default", "b", testAnns, false⟩

/-- The full mutation of the no-replacement scenario. -/
def c5E : List (Entity × Option String) :=
  [(entityA, none), (entityB, some "loc")]

/-- The converged state after the mutation and its processing pass. -/
def c5s : CatalogState :=
  ⟨[⟨compRef "a", entityA, some entityA, [], none, false⟩,
    ⟨compRef "b", entityB, some entityB, [], some "loc", false⟩],
   [], [], [compRef "a", compRef "b"]⟩

/-- Witness for C5: re-applying the same full mutation to the converged
two-entity state of the scenario is the identity. -/
theorem stable_reprocessing_witness : applyFull c5E c5s = c5s :=
  (stable_reprocessing "test" (fun e => e) c5E c5s
      (by decide) (by decide) (by decide) (by decide)
      (by decide) (by decide) (by decide) (by decide)).1

end Catalog

namespace Tracker

/-- Terminal outcome of one processing pass as observed by the tracker. -/
inductive Outcome where
  | failed (message : String)
  | successWithChanges
  | successWithErrors
  | successNoChange
deriving DecidableEq, Repr

/-- One tracked completed pass: the refresh-state item id, the entity
reference, and the terminal outcome the engine reported. -/
structure PassEvent where
  id : String
  entityRef : String
  outcome : Outcome
deriving DecidableEq, Repr

/-- Association-list read, mirroring JS Map.get. -/
def getKV {α : Type} (l : List (String × α)) (k : String) : Option α :=
  match l.find? (fun p => p.1 == k) with
  | some p => some p.2
  | none => none

/-- Association-list write, mirroring JS Map.set: replace the entry in place
or append a new one. -/
def setKV {α : Type} : List (String × α) → String → α → List (String × α)
  | [], k, v => [(k, v)]
  | p :: rest, k, v => if p.1 == k then (k, v) :: rest else p :: setKV rest k v

/-- Association-list delete, mirroring JS Map.delete. -/
def delKV {α : Type} (l : List (String × α)) (k : String) : List (String × α) :=
  l.filter (fun p => p.1 != k)

/-- State of the WaitingProgressTracker: completed-pass counts keyed by item
id, the error record keyed by entity reference, and the value the wait()
promise resolved with, once resolved. -/
structure TrackerState where
  counts : List (String × Nat)
  errors : List (String × String)
  resolved : Option (List (String × String))
deriving DecidableEq, Repr

/-- The tracker state before any pass completes. -/
def initialTracker : TrackerState :=
  ⟨[], [], none⟩

/-- Whether an entity reference is tracked, mirroring the entityRefs filter
at the top of processStart. -/
def trackedB (trackedRefs : Option (List String)) (r : String) : Bool :=
  match trackedRefs with
  | none => true
  | some refs => refs.contains r

/-- onDone of the tracker: store the count captured at processStart plus
one, and resolve the wait() promise with the current error record when every
recorded count has reached two; a resolve call after the promise already
resolved is a no-op. -/
def trackerOnDone (s : TrackerState) (id : String) (currentCount : Nat) :
    TrackerState :=
  let counts1 := setKV s.counts id (currentCount + 1)
  if counts1.all (fun p => decide (2 ≤ p.2)) then
    { counts := counts1, errors := s.errors,
      resolved :=
        match s.resolved with
        | none => some s.errors
        | some r => some r }
  else
    { s with counts := counts1 }

/-- One tracked pass, translated from processStart and the tracking object
it returns: the count captured at start is stored back, then the terminal
callback records or clears the error for the entity reference and either
counts the pass (failed, with-errors, no-change) or resets the count to zero
(with-changes, which never calls onDone). -/
def trackerStepTracked (s : TrackerState) (e : PassEvent) : TrackerState :=
  let currentCount := (getKV s.counts e.id).getD 0
  let s0 : TrackerState := { s with counts := setKV s.counts e.id currentCount }
  match e.outcome with
  | Outcome.failed msg =>
    trackerOnDone { s0 with errors := setKV s0.errors e.entityRef msg } e.id currentCount
  | Outcome.successWithChanges =>
    { s0 with counts := setKV s0.counts e.id 0, errors := delKV s0.errors e.entityRef }
  | Outcome.successWithErrors =>
    trackerOnDone { s0 with errors := delKV s0.errors e.entityRef } e.id currentCount
  | Outcome.successNoChange =>
    trackerOnDone s0 e.id currentCount

/-- One completed pass as seen by the tracker; untracked references receive
the no-op tracking object and leave the state unchanged. -/
def trackerStep (tr : Option (List String)) (s : TrackerState) (e : PassEvent) :
    TrackerState :=
  if trackedB tr e.entityRef then trackerStepTracked s e else s

/-- A tracker run over a sequence of completed passes. -/
def runTracker (tr : Option (List String)) (evs : List PassEvent) : TrackerState :=
  evs.foldl (trackerStep tr) initialTracker

theorem getKV_setKV_self {α : Type} (l : List (String × α)) (k : String) (v : α) :
    getKV (setKV l k v) k = some v := by
  induction l with
  | nil => simp [setKV, getKV, List.find?]
  | cons p rest ih =>
    by_cases hc : (p.1 == k) = true
    · simp [setKV, hc, getKV, List.find?]
    · simp only [setKV, hc, if_false]
      simpa [getKV, List.find?, hc] using ih

theorem getKV_setKV_ne {α : Type} (l : List (String × α)) (k k' : String) (v : α)
    (h : k' ≠ k) : getKV (setKV l k v) k' = getKV l k' := by
  have hkk : (k == k') = false := beq_eq_false_iff_ne.mpr (fun hh => h hh.symm)
  induction l with
  | nil => simp [setKV, getKV, List.find?, hkk]
  | cons p rest ih =>
    by_cases hc : (p.1 == k) = true
    · have hp : (p.1 == k') = false := by
        have : p.1 = k := by simpa using hc
        simp [this, hkk]
      simp [setKV, hc, getKV, List.find?, hp, hkk]
    · by_cases hp : (p.1 == k') = true
      · simp [setKV, hc, getKV, List.find?, hp]
      · simp only [setKV, hc, if_false]
        simpa [getKV, List.find?, hp] using ih

theorem getKV_delKV_self {α : Type} (l : List (String × α)) (k : String) :
    getKV (delKV l k) k = none := by
  induction l with
  | nil => rfl
  | cons p rest ih =>
    by_cases hc : (p.1 != k) = true
    · have hp : (p.1 == k) = false := by simpa [bne] using hc
      simp only [delKV, List.filter] at ih ⊢
      simpa [hc, getKV, List.find?, hp] using ih
    · simp only [delKV, List.filter] at ih ⊢
      simpa [hc] using ih

theorem getKV_delKV_ne {α : Type} (l : List (String × α)) (k k' : String)
    (h : k' ≠ k) : getKV (delKV l k) k' = getKV l k' := by
  induction l with
  | nil => rfl
  | cons p rest ih =>
    by_cases hc : (p.1 != k) = true
    · by_cases hp : (p.1 == k') = true
      · simp only [delKV, List.filter] at ih ⊢
        simp [hc, getKV, List.find?, hp]
      · simp only [delKV, List.filter] at ih ⊢
        simpa [hc, getKV, List.find?, hp] using ih
    · have hpk : p.1 = k := by
        have : (p.1 == k) = true := by simpa [bne] using hc
        simpa using this
      have hp : (p.1 == k') = false := by
        rw [hpk]
        exact beq_eq_false_iff_ne.mpr (fun hh => h hh.symm)
      simp only [delKV, List.filter] at ih ⊢
      simpa [hc, getKV, List.find?, hp] using ih

theorem trackerOnDone_counts (s : TrackerState) (id : String) (c : Nat) :
    (trackerOnDone s id c).counts = setKV s.counts id (c + 1) := by
  unfold trackerOnDone
  by_cases hall : (setKV s.counts id (c + 1)).all (fun p => decide (2 ≤ p.2)) = true
  · simp [hall]
  · simp [hall]

theorem trackerOnDone_errors (s : TrackerState) (id : String) (c : Nat) :
    (trackerOnDone s id c).errors = s.errors := by
  unfold trackerOnDone
  by_cases hall : (setKV s.counts id (c + 1)).all (fun p => decide (2 ≤ p.2)) = true
  · simp [hall]
  · simp [hall]

theorem trackerOnDone_resolved_sound (s : TrackerState) (id : String) (c : Nat)
    (hres : s.resolved = none) (r : List (String × String))
    (hstep : (trackerOnDone s id c).resolved = some r) :
    ∀ p ∈ (trackerOnDone s id c).counts, 2 ≤ p.2 := by
  unfold trackerOnDone at hstep ⊢
  by_cases hall : (setKV s.counts id (c + 1)).all (fun p => decide (2 ≤ p.2)) = true
  · simp only [hall, if_true]
    intro p hp
    simpa using List.all_eq_true.mp hall p hp
  · exfalso
    simp [hall, hres] at hstep

theorem trackerStep_resolved_sound (tr : Option (List String)) (s : TrackerState)
    (e : PassEvent) (r : List (String × String)) (hres : s.resolved = none)
    (hstep : (trackerStep tr s e).resolved = some r) :
    ∀ p ∈ (trackerStep tr s e).counts, 2 ≤ p.2 := by
  unfold trackerStep at hstep ⊢
  obtain ⟨eid, eref, eo⟩ := e
  by_cases ht : trackedB tr eref = true
  · simp only [ht, if_true] at hstep ⊢
    cases eo with
    | failed msg =>
      simp only [trackerStepTracked] at hstep ⊢
      exact trackerOnDone_resolved_sound _ _ _ hres r hstep
    | successWithChanges =>
      exfalso
      simp only [trackerStepTracked] at hstep
      rw [hres] at hstep
      exact Option.noConfusion hstep
    | successWithErrors =>
      simp only [trackerStepTracked] at hstep ⊢
      exact trackerOnDone_resolved_sound _ _ _ hres r hstep
    | successNoChange =>
      simp only [trackerStepTracked] at hstep ⊢
      exact trackerOnDone_resolved_sound _ _ _ hres r hstep
  · exfalso
    simp only [ht, if_false, Bool.false_eq_true] at hstep
    rw [hres] at hstep
    exact Option.noConfusion hstep

theorem trackerStep_counts_ne (tr : Option (List String)) (s : TrackerState)
    (e : PassEvent) (idJ : String) (hj : idJ ≠ e.id) :
    getKV (trackerStep tr s e).counts idJ = getKV s.counts idJ := by
  unfold trackerStep
  obtain ⟨eid, eref, eo⟩ := e
  simp only at hj
  by_cases ht : trackedB tr eref = true
  · simp only [ht, if_true]
    cases eo with
    | failed msg =>
      simp only [trackerStepTracked]
      rw [trackerOnDone_counts]
      simp only
      rw [getKV_setKV_ne _ _ _ _ hj]
      exact getKV_setKV_ne _ _ _ _ hj
    | successWithChanges =>
      simp only [trackerStepTracked]
      rw [getKV_setKV_ne _ _ _ _ hj]
      exact getKV_setKV_ne _ _ _ _ hj
    | successWithErrors =>
      simp only [trackerStepTracked]
      rw [trackerOnDone_counts]
      simp only
      rw [getKV_setKV_ne _ _ _ _ hj]
      exact getKV_setKV_ne _ _ _ _ hj
    | successNoChange =>
      simp only [trackerStepTracked]
      rw [trackerOnDone_counts]
      simp only
      rw [getKV_setKV_ne _ _ _ _ hj]
      exact getKV_setKV_ne _ _ _ _ hj
  · simp [ht]

theorem trackerStep_errors_ne (tr : Option (List String)) (s : TrackerState)
    (e : PassEvent) (rK : String) (hk : rK ≠ e.entityRef) :
    getKV (trackerStep tr s e).errors rK = getKV s.errors rK := by
  unfold trackerStep
  obtain ⟨eid, eref, eo⟩ := e
  simp only at hk
  by_cases ht : trackedB tr eref = true
  · simp only [ht, if_true]
    cases eo with
    | failed msg =>
      simp only [trackerStepTracked]
      rw [trackerOnDone_errors]
      exact getKV_setKV_ne _ _ _ _ hk
    | successWithChanges =>
      simp only [trackerStepTracked]
      exact getKV_delKV_ne _ _ _ hk
    | successWithErrors =>
      simp only [trackerStepTracked]
      rw [trackerOnDone_errors]
      exact getKV_delKV_ne _ _ _ hk
    | successNoChange =>
      simp only [trackerStepTracked]
      rw [trackerOnDone_errors]
  · simp [ht]

theorem runTracker_append_sound (tr : Option (List String)) (evs : List PassEvent)
    (e : PassEvent) (r : List (String × String))
    (hres : (runTracker tr evs).resolved = none)
    (hstep : (runTracker tr (evs ++ [e])).resolved = some r) :
    ∀ p ∈ (runTracker tr (evs ++ [e])).counts, 2 ≤ p.2 := by
  have hrun : runTracker tr (evs ++ [e]) = trackerStep tr (runTracker tr evs) e := by
    simp [runTracker, List.foldl_append]
  rw [hrun] at hstep ⊢
  exact trackerStep_resolved_sound tr (runTracker tr evs) e r hres hstep

/-- C8: the waiting tracker behind the harness process() blocks until every
tracked item has completed two passes — at the step (equivalently, the run)
on which the wait() promise first resolves, every recorded completed-pass
count has reached at least two; and in-flight items never interfere: a pass
for one item id leaves every other id's count unchanged, and a pass for one
entity reference leaves every other reference's error entry unchanged. -/
theorem waiting_tracker_wait_gate (tr : Option (List String)) :
    (∀ evs e r, (runTracker tr evs).resolved = none →
        (runTracker tr (evs ++ [e])).resolved = some r →
        ∀ p ∈ (runTracker tr (evs ++ [e])).counts, 2 ≤ p.2)
    ∧ (∀ s e r, s.resolved = none → (trackerStep tr s e).resolved = some r →
        ∀ p ∈ (trackerStep tr s e).counts, 2 ≤ p.2)
    ∧ (∀ s e idJ, idJ ≠ PassEvent.id e →
        getKV (trackerStep tr s e).counts idJ = getKV s.counts idJ)
    ∧ (∀ s e rK, rK ≠ PassEvent.entityRef e →
        getKV (trackerStep tr s e).errors rK = getKV s.errors rK) :=
  ⟨fun evs e r hres hstep => runTracker_append_sound tr evs e r hres hstep,
   fun s e r hres hstep => trackerStep_resolved_sound tr s e r hres hstep,
   fun s e idJ hj => trackerStep_counts_ne tr s e idJ hj,
   fun s e rK hk => trackerStep_errors_ne tr s e rK hk⟩

/-- Witness for C8: a single item completing its second no-change pass
resolves the promise with every count at two, and a pass for item i1 leaves
the count of item j and the error entry of reference q untouched. -/
theorem waiting_tracker_wait_gate_witness :
    (∀ p ∈ (runTracker none
        ([⟨"i1", "r1", Outcome.successNoChange⟩] ++
          [⟨"i1", "r1", Outcome.successNoChange⟩])).counts, 2 ≤ p.2)
    ∧ getKV (trackerStep none ⟨[("i1", 1)], [], none⟩
        ⟨"i1", "r1", Outcome.successNoChange⟩).counts "j"
        = getKV ([("i1", 1)] : List (String × Nat)) "j"
    ∧ getKV (trackerStep none ⟨[("i1", 1)], [], none⟩
        ⟨"i1", "r1", Outcome.successNoChange⟩).errors "q"
        = getKV ([] : List (String × String)) "q" :=
  ⟨(waiting_tracker_wait_gate none).1 [⟨"i1", "r1", Outcome.successNoChange⟩]
      ⟨"i1", "r1", Outcome.successNoChange⟩ [] (by decide) (by decide),
   (waiting_tracker_wait_gate none).2.2.1 ⟨[("i1", 1)], [], none⟩
      ⟨"i1", "r1", Outcome.successNoChange⟩ "j" (by decide),
   (waiting_tracker_wait_gate none).2.2.2 ⟨[("i1", 1)], [], none⟩
      ⟨"i1", "r1", Outcome.successNoChange⟩ "q" (by decide)⟩

/-- Whether an outcome counts toward the two completed passes: no-change,
with-errors and failed call onDone; with-changes instead resets the count. -/
def countedOutcome : Outcome → Bool
  | Outcome.successWithChanges => false
  | _ => true

/-- Whether an outcome touches the error record: failed sets the entry,
with-changes and with-errors delete it, no-change leaves it alone. -/
def errorAffecting : Outcome → Bool
  | Outcome.successNoChange => false
  | _ => true

/-- The most recent error-affecting outcome a run applies to a reference. -/
def lastErrorOutcome (tr : Option (List String)) (r : String) :
    List PassEvent → Option Outcome
  | [] => none
  | e :: evs =>
    match lastErrorOutcome tr r evs with
    | some o => some o
    | none =>
      if trackedB tr e.entityRef && (e.entityRef == r) && errorAffecting e.outcome
      then some e.outcome else none

/-- The most recent counted outcome a run applies to a reference. -/
def lastCountedOutcome (tr : Option (List String)) (r : String) :
    List PassEvent → Option Outcome
  | [] => none
  | e :: evs =>
    match lastCountedOutcome tr r evs with
    | some o => some o
    | none =>
      if trackedB tr e.entityRef && (e.entityRef == r) && countedOutcome e.outcome
      then some e.outcome else none

/-- The completed-pass count one tracked event contributes for an item id:
a with-changes pass resets to zero, a counted pass increments. -/
def countStep (tr : Option (List String)) (id : String) (acc : Option Nat)
    (e : PassEvent) : Option Nat :=
  if trackedB tr e.entityRef && (e.id == id) then
    some (match e.outcome with
      | Outcome.successWithChanges => 0
      | _ => acc.getD 0 + 1)
  else acc

/-- The completed-pass count a run leaves for an item id — the number of
counted passes since that item's last with-changes pass, or none when the
item never completed a tracked pass. -/
def countVal (tr : Option (List String)) (id : String) (evs : List PassEvent) :
    Option Nat :=
  evs.foldl (countStep tr id) none

theorem trackerStep_counts_self (tr : Option (List String)) (s : TrackerState)
    (e : PassEvent) (ht : trackedB tr e.entityRef = true) :
    getKV (trackerStep tr s e).counts e.id =
      countStep tr e.id (getKV s.counts e.id) e := by
  unfold trackerStep countStep
  obtain ⟨eid, eref, eo⟩ := e
  simp only [ht, if_true, beq_self_eq_true, Bool.and_true, Bool.true_and]
  cases eo with
  | failed msg =>
    simp only [trackerStepTracked]
    rw [trackerOnDone_counts]
    simp only
    rw [getKV_setKV_self]
  | successWithChanges =>
    simp only [trackerStepTracked]
    rw [getKV_setKV_self]
  | successWithErrors =>
    simp only [trackerStepTracked]
    rw [trackerOnDone_counts]
    simp only
    rw [getKV_setKV_self]
  | successNoChange =>
    simp only [trackerStepTracked]
    rw [trackerOnDone_counts]
    simp only
    rw [getKV_setKV_self]

theorem counts_char_step (tr : Option (List String)) (s : TrackerState)
    (e : PassEvent) (id : String) :
    getKV (trackerStep tr s e).counts id = countStep tr id (getKV s.counts id) e := by
  by_cases ht : trackedB tr e.entityRef = true
  · by_cases hid : (e.id == id) = true
    · have : e.id = id := by simpa using hid
      subst this
      exact trackerStep_counts_self tr s e ht
    · have hj : id ≠ e.id := fun hh => by simp [hh] at hid
      rw [trackerStep_counts_ne tr s e id hj]
      unfold countStep
      simp [hid]
  · unfold trackerStep countStep
    simp [ht]

theorem counts_char_fold (tr : Option (List String)) (id : String)
    (evs : List PassEvent) :
    ∀ s : TrackerState,
      getKV (evs.foldl (trackerStep tr) s).counts id =
        evs.foldl (countStep tr id) (getKV s.counts id) := by
  induction evs with
  | nil => intro s; rfl
  | cons e evs ih =>
    intro s
    rw [List.foldl_cons, List.foldl_cons, ih (trackerStep tr s e),
      counts_char_step tr s e id]

theorem errors_char_step (tr : Option (List String)) (s : TrackerState)
    (e : PassEvent) (r : String) :
    getKV (trackerStep tr s e).errors r =
      if trackedB tr e.entityRef && (e.entityRef == r) && errorAffecting e.outcome
      then (match e.outcome with
        | Outcome.failed m => some m
        | _ => none)
      else getKV s.errors r := by
  by_cases ht : trackedB tr e.entityRef = true
  · by_cases hm : (e.entityRef == r) = true
    · have : e.entityRef = r := by simpa using hm
      subst this
      unfold trackerStep
      obtain ⟨eid, eref, eo⟩ := e
      simp only [ht, if_true, beq_self_eq_true, Bool.and_true, Bool.true_and]
      cases eo with
      | failed msg =>
        simp only [trackerStepTracked, errorAffecting]
        rw [trackerOnDone_errors]
        simp only [if_true]
        rw [getKV_setKV_self]
      | successWithChanges =>
        simp only [trackerStepTracked, errorAffecting]
        simp only [if_true]
        exact getKV_delKV_self _ _
      | successWithErrors =>
        simp only [trackerStepTracked, errorAffecting]
        rw [trackerOnDone_errors]
        simp only [if_true]
        exact getKV_delKV_self _ _
      | successNoChange =>
        simp only [trackerStepTracked, errorAffecting]
        rw [trackerOnDone_errors]
        simp
    · have hk : r ≠ e.entityRef := fun hh => by simp [hh] at hm
      rw [trackerStep_errors_ne tr s e r hk]
      simp [hm]
  · unfold trackerStep
    simp [ht]

theorem errors_char_fold (tr : Option (List String)) (r : String)
    (evs : List PassEvent) :
    ∀ s : TrackerState,
      getKV (evs.foldl (trackerStep tr) s).errors r =
        match lastErrorOutcome tr r evs with
        | some (Outcome.failed m) => some m
        | some _ => none
        | none => getKV s.errors r := by
  induction evs with
  | nil =>
    intro s
    simp [lastErrorOutcome]
  | cons e evs ih =>
    intro s
    rw [List.foldl_cons, ih (trackerStep tr s e)]
    cases hl : lastErrorOutcome tr r evs with
    | some o =>
      cases o <;> simp [lastErrorOutcome, hl]
    | none =>
      simp only [lastErrorOutcome, hl]
      rw [errors_char_step tr s e r]
      by_cases hc : (trackedB tr e.entityRef && (e.entityRef == r)
          && errorAffecting e.outcome) = true
      · simp only [hc, if_true]
        cases e.outcome <;> simp
      · simp only [hc]
        simp [Bool.not_eq_true] at hc
        simp [hc]

/-- C10 (amended): in the WaitingProgressTracker, a with-changes pass resets
the item's completed-pass count to zero rather than incrementing it; over any
run the recorded count of an item equals the number of counted passes
(no-change, with-errors, failed) since its last with-changes pass; the wait()
promise first resolves only when every recorded count has reached two; and
the error record holds exactly the references whose most recent
error-affecting pass (failed, with-errors or with-changes) was a failure — a
no-change pass does not clear a previously recorded error. -/
theorem with_changes_resets_and_error_record (tr : Option (List String)) :
    (∀ s e, trackedB tr (PassEvent.entityRef e) = true →
        PassEvent.outcome e = Outcome.successWithChanges →
        getKV (trackerStep tr s e).counts (PassEvent.id e) = some 0)
    ∧ (∀ evs id, getKV (runTracker tr evs).counts id = countVal tr id evs)
    ∧ (∀ s e r, s.resolved = none → (trackerStep tr s e).resolved = some r →
        ∀ p ∈ (trackerStep tr s e).counts, 2 ≤ p.2)
    ∧ (∀ evs r, getKV (runTracker tr evs).errors r =
        match lastErrorOutcome tr r evs with
        | some (Outcome.failed m) => some m
        | some _ => none
        | none => none) := by
  refine ⟨?_, ?_, ?_, ?_⟩
  · intro s e ht ho
    rw [trackerStep_counts_self tr s e ht]
    unfold countStep
    simp [ho, ht]
  · intro evs id
    exact counts_char_fold tr id evs initialTracker
  · intro s e r hres hstep
    exact trackerStep_resolved_sound tr s e r hres hstep
  · intro evs r
    rw [show runTracker tr evs = evs.foldl (trackerStep tr) initialTracker from rfl,
      errors_char_fold tr r evs initialTracker]
    cases hl : lastErrorOutcome tr r evs with
    | none => rfl
    | some o => cases o <;> rfl

/-- The run refuting the stated error-record characterization: one item
fails and then completes a no-change pass. -/
def c10evs : List PassEvent :=
  [⟨"i1", "component:default/test", Outcome.failed "NOPE"⟩,
   ⟨"i1", "component:default/test", Outcome.successNoChange⟩]

/-- Counterexample for C10 as stated: after a failure followed by a
no-change pass the promise resolves with the failure still recorded for the
reference, although that reference's most recent counted pass is the
no-change pass, not a failure — so the resolved error record is not the set
of references whose most recent counted pass was a failure. -/
theorem error_record_survives_no_change :
    (runTracker none c10evs).resolved
        = some [("component:default/test", "NOPE")]
    ∧ lastCountedOutcome none "component:default/test" c10evs
        = some Outcome.successNoChange := by
  exact ⟨by decide, by decide⟩

/-- Witness for C10: a with-changes pass for item i1 resets its recorded
count (previously five) to zero. -/
theorem with_changes_resets_witness :
    getKV (trackerStep none ⟨[("i1", 5)], [], none⟩
        ⟨"i1", "r1", Outcome.successWithChanges⟩).counts "i1" = some 0 :=
  (with_changes_resets_and_error_record none).1 ⟨[("i1", 5)], [], none⟩
    ⟨"i1", "r1", Outcome.successWithChanges⟩ (by decide) (by decide)

end Tracker

namespace ReleasePatch

/-- A human-readable step result collected by the patch chain. -/
structure ResponseStep where
  message : String
  secondaryMessage : Option String
  link : Option String
deriving DecidableEq, Repr

/-- The side-effecting GitHub requests the patch chain issues, in source
order. -/
inductive RequestKind where
  | getBranch
  | createTempCommit
  | forceBranchHeadToTempCommit
  | merge
  | createCherryPickCommit
  | replaceTempCommit
  | createTagObject
  | createReference
  | updateRelease
deriving DecidableEq, Repr

/-- Events of one patch run: an issued request or the success callback. -/
inductive PatchEvent where
  | request (k : RequestKind)
  | successCbInvoked
deriving DecidableEq, Repr

/-- The response fields the patch chain reads from its (all successful)
GitHub calls, plus whether a success callback was supplied. -/
structure PatchInputs where
  targetCommitish : String
  fetchedBranchName : String
  branchHtmlLink : String
  tempCommitMessage : String
  mergeCommitMessage : String
  mergeHtmlUrl : String
  releaseBranchSha : String
  cherryPickMessage : String
  updatedRefName : String
  tagObjectName : String
  newRefName : String
  releaseName : String
  releaseTagName : String
  releaseHtmlUrl : String
  hasSuccessCb : Bool
deriving DecidableEq, Repr

/-- The patch side-effect chain of the github-release-manager, translated
from its source: each numbered step issues its request and appends its
human-readable step result (the force-branch-head step adds none), and the
optional success callback is invoked once, after the final request. -/
def patch (i : PatchInputs) : List ResponseStep × List PatchEvent :=
  let events1 : List PatchEvent := [PatchEvent.request RequestKind.getBranch]
  let steps1 : List ResponseStep :=
    [⟨"Fetched release branch \"" ++ i.fetchedBranchName ++ "\"", none,
      some i.branchHtmlLink⟩]
  let events2 := events1 ++ [PatchEvent.request RequestKind.createTempCommit]
  let steps2 := steps1 ++
    [⟨"Created temporary commit",
      some ("with message \"" ++ i.tempCommitMessage ++ "\""), none⟩]
  let events3 := events2 ++ [PatchEvent.request RequestKind.forceBranchHeadToTempCommit]
  let events4 := events3 ++ [PatchEvent.request RequestKind.merge]
  let steps4 := steps2 ++
    [⟨"Merged temporary commit into \"" ++ i.targetCommitish ++ "\"",
      some ("with message \"" ++ i.mergeCommitMessage ++ "\""), some i.mergeHtmlUrl⟩]
  let events5 := events4 ++ [PatchEvent.request RequestKind.createCherryPickCommit]
  let steps5 := steps4 ++
    [⟨"Cherry-picked patch commit to \"" ++ i.releaseBranchSha ++ "\"",
      some ("with message \"" ++ i.cherryPickMessage ++ "\""), none⟩]
  let events6 := events5 ++ [PatchEvent.request RequestKind.replaceTempCommit]
  let steps6 := steps5 ++
    [⟨"Updated reference \"" ++ i.updatedRefName ++ "\"", none, none⟩]
  let events7 := events6 ++ [PatchEvent.request RequestKind.createTagObject]
  let steps7 := steps6 ++
    [⟨"Created new tag object",
      some ("with name \"" ++ i.tagObjectName ++ "\""), none⟩]
  let events8 := events7 ++ [PatchEvent.request RequestKind.createReference]
  let steps8 := steps7 ++
    [⟨"Created new reference \"" ++ i.newRefName ++ "\"",
      some ("for tag object \"" ++ i.tagObjectName ++ "\""), none⟩]
  let events9 := events8 ++ [PatchEvent.request RequestKind.updateRelease]
  let steps9 := steps8 ++
    [⟨"Updated release \"" ++ i.releaseName ++ "\"",
      some ("with tag " ++ i.releaseTagName), some i.releaseHtmlUrl⟩]
  let events10 :=
    if i.hasSuccessCb then events9 ++ [PatchEvent.successCbInvoked] else events9
  (steps9, events10)

/-- The nine requests of the patch chain, in issue order. -/
def patchRequests : List PatchEvent :=
  [PatchEvent.request RequestKind.getBranch,
   PatchEvent.request RequestKind.createTempCommit,
   PatchEvent.request RequestKind.forceBranchHeadToTempCommit,
   PatchEvent.request RequestKind.merge,
   PatchEvent.request RequestKind.createCherryPickCommit,
   PatchEvent.request RequestKind.replaceTempCommit,
   PatchEvent.request RequestKind.createTagObject,
   PatchEvent.request RequestKind.createReference,
   PatchEvent.request RequestKind.updateRelease]

/-- C9: a patch run in which every GitHub request succeeds returns exactly
eight human-readable step results, appended in the fixed order of the
side-effecting requests (the force-branch-head step adds no entry), and
invokes the success callback at most once, only after the final request has
completed. -/
theorem patch_steps_and_callback (i : PatchInputs) :
    (patch i).1.length = 8
    ∧ (patch i).1.map (fun st => st.message) =
      ["Fetched release branch \"" ++ i.fetchedBranchName ++ "\"",
       "Created temporary commit",
       "Merged temporary commit into \"" ++ i.targetCommitish ++ "\"",
       "Cherry-picked patch commit to \"" ++ i.releaseBranchSha ++ "\"",
       "Updated reference \"" ++ i.updatedRefName ++ "\"",
       "Created new tag object",
       "Created new reference \"" ++ i.newRefName ++ "\"",
       "Updated release \"" ++ i.releaseName ++ "\""]
    ∧ (patch i).2 = patchRequests ++
        (if i.hasSuccessCb then [PatchEvent.successCbInvoked] else []) := by
  refine ⟨rfl, rfl, ?_⟩
  obtain ⟨t, f, b, tc, mc, mh, rs, cp, ur, tg, nr, rn, rt, rh, cb⟩ := i
  cases cb
  · rfl
  · rfl

end ReleasePatch
